import Mathlib

/-!
Shallow embedding of the ApexPocket firmware core
(src/hardware/apexpocket/src/main.cpp) for checking the natural-language
specification against the code.

Floating-point (`float`) arithmetic of the firmware is modelled with exact
rationals (`ℚ`); `millis()` timestamps and `unsigned long` counters with `ℕ`;
the C++ `int` agent index with `ℤ`.  Display rendering, audio, pins and the
raw HTTP transport are out of scope (per the spec they are external
collaborators); the HTTP response code of each network call is an input to
the corresponding modelled operation.
-/

namespace ApexPocket

/-! ### Affective-core constants (main.cpp lines 70-91) -/

def BETA_BASE : ℚ := 8 / 1000
def FLOOR_RATE : ℚ := 1 / 10000
def MAX_E : ℚ := 100
def INITIAL_E : ℚ := 1
def INITIAL_FLOOR : ℚ := 1

def E_THRESHOLD_GUARDED : ℚ := 1 / 2
def E_THRESHOLD_TENDER : ℚ := 1
def E_THRESHOLD_WARM : ℚ := 2
def E_THRESHOLD_FLOURISHING : ℚ := 5
def E_THRESHOLD_RADIANT : ℚ := 12
def E_THRESHOLD_TRANSCENDENT : ℚ := 30

def DEBOUNCE_MS : ℕ := 50
def LONG_PRESS_MS : ℕ := 800
/-- The dual-button hold threshold is the literal `1000` at main.cpp line 695. -/
def COMBO_HOLD_MS : ℕ := 1000

/-! ### Agents (main.cpp lines 242-244) -/

def AGENTS : List String := ["AZOTH", "ELYSIAN", "VAJRA", "KETHER", "CLAUDE"]
def NUM_AGENTS : ℤ := 5

/-- `AGENTS[i]` as the firmware reads it; an out-of-range C++ index is
undefined behaviour, modelled here by the empty string. -/
def agentName (i : ℤ) : String :=
  if 0 ≤ i ∧ i < NUM_AGENTS then AGENTS.getD i.toNat "" else ""

/-! ### Soul state (main.cpp globals, lines 249-254 and 244) -/

structure SoulState where
  energy : ℚ
  floor : ℚ
  interactions : ℕ
  totalCare : ℚ
  birthTime : ℕ
  agentIndex : ℤ
  deriving Repr, DecidableEq

/-- Initial soul: `E = INITIAL_E`, `E_floor = INITIAL_FLOOR`, counters zero,
`currentAgentIndex = 0` (main.cpp lines 244, 250-254). -/
def initSoul : SoulState :=
  { energy := INITIAL_E, floor := INITIAL_FLOOR, interactions := 0,
    totalCare := 0, birthTime := 0, agentIndex := 0 }

/-- The state-dependent growth rate `BETA_BASE * (1.0f + E / 10.0f)`
(main.cpp line 473). -/
def betaOf (e : ℚ) : ℚ := BETA_BASE * (1 + e / 10)

/-- `updateSoul(care, damage, dt)` — main.cpp lines 471-485. -/
def updateSoul (s : SoulState) (care damage dt : ℚ) : SoulState :=
  if dt ≤ 0 then s
  else
    let dE := betaOf s.energy * (care - damage) * s.energy * dt
    let e1 := s.energy + dE
    let e2 := min MAX_E e1
    let e3 := max s.floor e2
    let newFloor :=
      if s.floor < e3 then min e3 (s.floor + (e3 - s.floor) * FLOOR_RATE * dt)
      else s.floor
    let newTotal := if 0 < care then s.totalCare + care else s.totalCare
    { s with energy := e3, floor := newFloor, totalCare := newTotal }

/-- `applyCare(intensity)` — main.cpp lines 487-492 (display side effects
omitted). -/
def applyCare (s : SoulState) (intensity : ℚ) : SoulState :=
  updateSoul { s with interactions := s.interactions + 1 } intensity 0 1

/-! ### Mood classification (main.cpp lines 494-502) -/

inductive AffectiveState where
  | protecting
  | guarded
  | tender
  | warm
  | flourishing
  | radiant
  | transcendent
  deriving Repr, DecidableEq

/-- The numeric value of each `AffectiveState` enumerator (main.cpp
lines 102-110: `STATE_PROTECTING = 0`, ...). -/
def stateRank : AffectiveState → ℕ
  | .protecting => 0
  | .guarded => 1
  | .tender => 2
  | .warm => 3
  | .flourishing => 4
  | .radiant => 5
  | .transcendent => 6

/-- `getState()` — main.cpp lines 494-502, reading the energy value. -/
def getState (e : ℚ) : AffectiveState :=
  if E_THRESHOLD_TRANSCENDENT < e then .transcendent
  else if E_THRESHOLD_RADIANT < e then .radiant
  else if E_THRESHOLD_FLOURISHING < e then .flourishing
  else if E_THRESHOLD_WARM < e then .warm
  else if E_THRESHOLD_TENDER < e then .tender
  else if E_THRESHOLD_GUARDED < e then .guarded
  else .protecting

/-- `stateName()` — main.cpp lines 531-542. -/
def stateName : AffectiveState → String
  | .protecting => "PROTECT"
  | .guarded => "GUARDED"
  | .tender => "TENDER"
  | .warm => "WARM"
  | .flourishing => "FLOURISH"
  | .radiant => "RADIANT"
  | .transcendent => "TRANSCEND"

/-! ### Sequences of soul calls (for the monotonicity claims) -/

/-- One call into the affective core: either a raw `updateSoul` event or an
`applyCare` convenience call. -/
inductive SoulCall where
  | event (care damage dt : ℚ)
  | careCall (intensity : ℚ)
  deriving Repr

def runCall (s : SoulState) : SoulCall → SoulState
  | .event care damage dt => updateSoul s care damage dt
  | .careCall intensity => applyCare s intensity

def runCalls (s : SoulState) (calls : List SoulCall) : SoulState :=
  calls.foldl runCall s

/-! ### UI modes (main.cpp lines 94-100) -/

inductive AppMode where
  | face
  | status
  | agents
  | chat
  | sync
  deriving Repr, DecidableEq

/-! ### FullSync with the Village (main.cpp lines 916-950) -/

/-- A JSON value as placed into the request documents. -/
inductive JVal where
  | num (q : ℚ)
  | nat (n : ℕ)
  | str (s : String)
  deriving Repr, DecidableEq

/-- The JSON document built by `syncWithVillage` (main.cpp lines 929-935):
keys `E`, `E_floor`, `interactions`, `total_care`, `device_id`, `state`,
in source order. -/
def syncRequestDoc (soul : SoulState) (deviceId : String) : List (String × JVal) :=
  [("E", .num soul.energy),
   ("E_floor", .num soul.floor),
   ("interactions", .nat soul.interactions),
   ("total_care", .num soul.totalCare),
   ("device_id", .str deviceId),
   ("state", .str (stateName (getState soul.energy)))]

/-- Observable outcome of one `syncWithVillage` call.  `didSave` records
whether the body invoked `saveState`; the function body (lines 916-950)
contains no `saveState` call on any path, so it is `false` on every path. -/
structure SyncOutcome where
  soul : SoulState
  villageOnline : Bool
  messageText : String
  didSave : Bool
  deriving Repr, DecidableEq

/-- `syncWithVillage()` — main.cpp lines 916-950.  `httpCode` is the result
of the blocking `http.POST`; it is only consulted when WiFi is up. -/
def syncWithVillage (soul : SoulState) (wifiConnected villageOnline : Bool)
    (httpCode : ℤ) : SyncOutcome :=
  if !wifiConnected then
    { soul := soul, villageOnline := villageOnline, messageText := "No WiFi",
      didSave := false }
  else if httpCode = 200 then
    { soul := soul, villageOnline := true, messageText := "Soul synced!",
      didSave := false }
  else
    { soul := soul, villageOnline := villageOnline, messageText := "Sync failed",
      didSave := false }

/-- `sendCare()` — main.cpp lines 889-914.  Fire-and-forget; its only
local effect is `villageOnline = true` on a 200 response. -/
def sendCareEffect (wifiConnected villageOnline : Bool) (httpCode : ℤ) : Bool :=
  if wifiConnected && decide (httpCode = 200) then true else villageOnline

/-! ### Persistence (main.cpp lines 982-1020) -/

/-- The fields `loadState` reads from `/soul.json`; `none` models a field
that is absent (or of the wrong type), in which case the ArduinoJson
`doc[key] | default` operator yields the default. -/
structure SnapshotDoc where
  E : Option ℚ
  E_floor : Option ℚ
  interactions : Option ℕ
  total_care : Option ℚ
  birth_time : Option ℕ
  agent : Option ℤ
  deriving Repr, DecidableEq

/-- The persisted-file states `loadState` distinguishes:
file absent (`LittleFS.exists` false), unreadable / not valid JSON
(`deserializeJson` fails), or parsed. -/
inductive SoulFile where
  | absent
  | unreadable
  | parsed (doc : SnapshotDoc)
  deriving Repr, DecidableEq

/-- `loadState()` — main.cpp lines 999-1020.  `now` is `millis()`, the
default used for a missing `birth_time`. -/
def loadState (s : SoulState) (file : SoulFile) (now : ℕ) : SoulState :=
  match file with
  | .absent => s
  | .unreadable => s
  | .parsed doc =>
      { energy := doc.E.getD INITIAL_E,
        floor := doc.E_floor.getD INITIAL_FLOOR,
        interactions := doc.interactions.getD 0,
        totalCare := doc.total_care.getD 0,
        birthTime := doc.birth_time.getD now,
        agentIndex := doc.agent.getD 0 }

/-- The JSON document built by `saveState` (main.cpp lines 983-989). -/
def saveRequestDoc (soul : SoulState) : List (String × JVal) :=
  [("E", .num soul.energy),
   ("E_floor", .num soul.floor),
   ("interactions", .nat soul.interactions),
   ("total_care", .num soul.totalCare),
   ("birth_time", .nat soul.birthTime),
   ("agent", .str (toString soul.agentIndex))]

/-! ### Button handling (main.cpp lines 686-796)

`handleButtons` is modelled as a step function on the mutable globals it
touches, with the two raw (active-low, already negated) button levels and
`millis()` as inputs, plus the HTTP response codes of any network calls the
step performs.  The step additionally returns the list of events the
invocation emitted, in emission order. -/

structure DeviceState where
  mode : AppMode
  soul : SoulState
  btnA_pressed : Bool
  btnB_pressed : Bool
  btnA_pressTime : ℕ
  btnB_pressTime : ℕ
  btnA_longTriggered : Bool
  btnB_longTriggered : Bool
  lastDebounce : ℕ
  wifiConnected : Bool
  villageOnline : Bool
  messageText : String
  deriving Repr, DecidableEq

/-- The boot-time values of the globals (main.cpp lines 244-279), before
WiFi bring-up. -/
def initDevice : DeviceState :=
  { mode := .face, soul := initSoul,
    btnA_pressed := false, btnB_pressed := false,
    btnA_pressTime := 0, btnB_pressTime := 0,
    btnA_longTriggered := false, btnB_longTriggered := false,
    lastDebounce := 0, wifiConnected := false, villageOnline := false,
    messageText := "" }

inductive BtnEvent where
  | comboSync
  | shortA
  | longA
  | shortB
  | longB
  deriving Repr, DecidableEq

/-- Combo check — main.cpp lines 694-702.  Runs before per-button edge
processing.  On fire: both long-triggered flags set, `showMessage`
then `syncWithVillage` (whose message overwrites it on every path). -/
def comboPhase (s : DeviceState) (btnA btnB : Bool) (now : ℕ) (syncCode : ℤ) :
    DeviceState × List BtnEvent :=
  if btnA && btnB && !s.btnA_longTriggered && !s.btnB_longTriggered
      && decide (COMBO_HOLD_MS < now - s.btnA_pressTime)
      && decide (COMBO_HOLD_MS < now - s.btnB_pressTime) then
    let o := syncWithVillage s.soul s.wifiConnected s.villageOnline syncCode
    ({ s with btnA_longTriggered := true, btnB_longTriggered := true,
              soul := o.soul, villageOnline := o.villageOnline,
              messageText := o.messageText },
     [.comboSync])
  else (s, [])

/-- Button A press edge — main.cpp lines 705-710. -/
def aPressPhase (s : DeviceState) (btnA : Bool) (now : ℕ) : DeviceState :=
  if btnA && !s.btnA_pressed then
    { s with btnA_pressed := true, btnA_pressTime := now,
             btnA_longTriggered := false, lastDebounce := now }
  else s

/-- Button A release edge and short-press dispatch — main.cpp lines 711-735. -/
def aReleasePhase (s : DeviceState) (btnA : Bool) (now : ℕ) (careCode : ℤ) :
    DeviceState × List BtnEvent :=
  if !btnA && s.btnA_pressed then
    let s1 := { s with btnA_pressed := false, lastDebounce := now }
    if !s1.btnA_longTriggered then
      match s1.mode with
      | .face =>
          let s2 := { s1 with soul := applyCare s1.soul (3 / 2) }
          let s3 := { s2 with
            villageOnline := sendCareEffect s2.wifiConnected s2.villageOnline careCode,
            messageText := "Love!" }
          (s3, [.shortA])
      | .agents =>
          ({ s1 with mode := .face, messageText := agentName s1.soul.agentIndex },
           [.shortA])
      | _ => (s1, [.shortA])
    else (s1, [])
  else (s, [])

/-- Button A long-press check — main.cpp lines 736-742. -/
def aLongPhase (s : DeviceState) (now : ℕ) : DeviceState × List BtnEvent :=
  if s.btnA_pressed && !s.btnA_longTriggered
      && decide (LONG_PRESS_MS < now - s.btnA_pressTime) then
    let s1 := { s with btnA_longTriggered := true }
    if s1.mode = .face then ({ s1 with messageText := "Serial chat mode" }, [.longA])
    else (s1, [.longA])
  else (s, [])

/-- Button B press edge — main.cpp lines 745-750. -/
def bPressPhase (s : DeviceState) (btnB : Bool) (now : ℕ) : DeviceState :=
  if btnB && !s.btnB_pressed then
    { s with btnB_pressed := true, btnB_pressTime := now,
             btnB_longTriggered := false, lastDebounce := now }
  else s

/-- Button B release edge and short-press dispatch — main.cpp lines 751-769. -/
def bReleasePhase (s : DeviceState) (btnB : Bool) (now : ℕ) (careCode : ℤ) :
    DeviceState × List BtnEvent :=
  if !btnB && s.btnB_pressed then
    let s1 := { s with btnB_pressed := false, lastDebounce := now }
    if !s1.btnB_longTriggered then
      match s1.mode with
      | .face =>
          let s2 := { s1 with soul := applyCare s1.soul (1 / 2) }
          let s3 := { s2 with
            villageOnline := sendCareEffect s2.wifiConnected s2.villageOnline careCode,
            messageText := "*poke*" }
          (s3, [.shortB])
      | .status => ({ s1 with mode := .face }, [.shortB])
      | .agents => ({ s1 with mode := .face }, [.shortB])
      | _ => (s1, [.shortB])
    else (s1, [])
  else (s, [])

/-- Button B long-press check — main.cpp lines 770-779. -/
def bLongPhase (s : DeviceState) (now : ℕ) : DeviceState × List BtnEvent :=
  if s.btnB_pressed && !s.btnB_longTriggered
      && decide (LONG_PRESS_MS < now - s.btnB_pressTime) then
    let s1 := { s with btnB_longTriggered := true }
    match s1.mode with
    | .face => ({ s1 with mode := .status }, [.longB])
    | .status => ({ s1 with mode := .agents }, [.longB])
    | _ => (s1, [.longB])
  else (s, [])

/-- `handleButtons()` — main.cpp lines 686-796.  The trailing
"Agent cycling in agent mode" block (lines 781-795) contains only comments
and empty conditionals and performs no state change, so it contributes
nothing here. -/
def stepButtons (s : DeviceState) (btnA btnB : Bool) (now : ℕ)
    (syncCode careCode : ℤ) : DeviceState × List BtnEvent :=
  if now - s.lastDebounce < DEBOUNCE_MS then (s, [])
  else
    let r1 := comboPhase s btnA btnB now syncCode
    let s2 := aPressPhase r1.1 btnA now
    let r3 := aReleasePhase s2 btnA now careCode
    let r4 := aLongPhase r3.1 now
    let s5 := bPressPhase r4.1 btnB now
    let r6 := bReleasePhase s5 btnB now careCode
    let r7 := bLongPhase r6.1 now
    (r7.1, r1.2 ++ r3.2 ++ r4.2 ++ r6.2 ++ r7.2)

/-- One sampled input to `handleButtons`: button levels, `millis()`, and the
HTTP codes for any sync / care requests issued during the step. -/
structure BtnInput where
  btnA : Bool
  btnB : Bool
  now : ℕ
  syncCode : ℤ
  careCode : ℤ
  deriving Repr

def runButtons (s : DeviceState) (inputs : List BtnInput) :
    DeviceState × List BtnEvent :=
  inputs.foldl
    (fun acc i =>
      let r := stepButtons acc.1 i.btnA i.btnB i.now i.syncCode i.careCode
      (r.1, acc.2 ++ r.2))
    (s, [])

/-- A reachable configuration used to probe AgentSelect mode: the device is
in `MODE_AGENTS` with button A held since `t = 100` (its press edge already
processed) and its long-press not yet fired. -/
def agentsModeHeldA : DeviceState :=
  { initDevice with mode := .agents, btnA_pressed := true,
                    btnA_pressTime := 100, lastDebounce := 100 }

/-! ## Helper lemmas about the affective core -/

set_option maxHeartbeats 1000000

theorem updateSoul_interactions (s : SoulState) (c d t : ℚ) :
    (updateSoul s c d t).interactions = s.interactions := by
  unfold updateSoul; split_ifs <;> rfl

theorem updateSoul_agentIndex (s : SoulState) (c d t : ℚ) :
    (updateSoul s c d t).agentIndex = s.agentIndex := by
  unfold updateSoul; split_ifs <;> rfl

theorem updateSoul_floor_le (s : SoulState) (c d t : ℚ) :
    s.floor ≤ (updateSoul s c d t).floor := by
  simp only [updateSoul]
  split_ifs with h1 h2 h3 h4
  all_goals try dsimp only
  all_goals try exact le_refl _
  all_goals
    have ht : (0 : ℚ) < t := not_le.mp h1
  all_goals
    refine le_min (le_of_lt (by assumption)) ?_
  all_goals
    have hpos : 0 < (s.floor ⊔ MAX_E ⊓ (s.energy + betaOf s.energy * (c - d) * s.energy * t)
        - s.floor) * FLOOR_RATE * t := by
      refine mul_pos (mul_pos (sub_pos.2 (by assumption)) (by norm_num [FLOOR_RATE])) ht
  all_goals linarith

theorem updateSoul_floor_le_energy (s : SoulState) (c d t : ℚ)
    (hfe : s.floor ≤ s.energy) :
    (updateSoul s c d t).floor ≤ (updateSoul s c d t).energy := by
  simp only [updateSoul]
  split_ifs with h1 h2 h3
  · exact hfe
  all_goals try dsimp only
  all_goals try exact min_le_left _ _
  all_goals try exact le_max_left _ _

theorem updateSoul_energy_le (s : SoulState) (c d t : ℚ)
    (hfl : s.floor ≤ MAX_E) (hmax : s.energy ≤ MAX_E) :
    (updateSoul s c d t).energy ≤ MAX_E := by
  simp only [updateSoul]
  split_ifs with h1 h2
  · exact hmax
  all_goals try dsimp only
  all_goals try exact max_le hfl (min_le_left _ _)

theorem updateSoul_totalCare_le (s : SoulState) (c d t : ℚ) :
    s.totalCare ≤ (updateSoul s c d t).totalCare := by
  simp only [updateSoul]
  split_ifs <;> try dsimp only
  all_goals first | exact le_refl _ | linarith

theorem applyCare_interactions (s : SoulState) (i : ℚ) :
    (applyCare s i).interactions = s.interactions + 1 := by
  unfold applyCare; rw [updateSoul_interactions]

theorem applyCare_agentIndex (s : SoulState) (i : ℚ) :
    (applyCare s i).agentIndex = s.agentIndex := by
  unfold applyCare; rw [updateSoul_agentIndex]

theorem applyCare_floor_le (s : SoulState) (i : ℚ) :
    s.floor ≤ (applyCare s i).floor :=
  updateSoul_floor_le _ _ _ _

theorem applyCare_totalCare_le (s : SoulState) (i : ℚ) :
    s.totalCare ≤ (applyCare s i).totalCare :=
  updateSoul_totalCare_le _ _ _ _

theorem runCall_floor_le (s : SoulState) (c : SoulCall) :
    s.floor ≤ (runCall s c).floor := by
  cases c
  · exact updateSoul_floor_le _ _ _ _
  · exact applyCare_floor_le _ _

theorem runCall_interactions_le (s : SoulState) (c : SoulCall) :
    s.interactions ≤ (runCall s c).interactions := by
  cases c
  · exact le_of_eq (updateSoul_interactions _ _ _ _).symm
  · rw [runCall, applyCare_interactions]; exact Nat.le_succ _

theorem runCall_totalCare_le (s : SoulState) (c : SoulCall) :
    s.totalCare ≤ (runCall s c).totalCare := by
  cases c
  · exact updateSoul_totalCare_le _ _ _ _
  · exact applyCare_totalCare_le _ _

theorem runCalls_mono (s : SoulState) (calls : List SoulCall) :
    s.floor ≤ (runCalls s calls).floor ∧
      s.interactions ≤ (runCalls s calls).interactions ∧
      s.totalCare ≤ (runCalls s calls).totalCare := by
  induction calls generalizing s with
  | nil => exact ⟨le_refl _, le_refl _, le_refl _⟩
  | cons c cs ih =>
      exact ⟨le_trans (runCall_floor_le s c) (ih (runCall s c)).1,
        le_trans (runCall_interactions_le s c) (ih (runCall s c)).2.1,
        le_trans (runCall_totalCare_le s c) (ih (runCall s c)).2.2⟩

/-! ## Helper lemmas about classification -/

theorem getState_mono (e1 e2 : ℚ) (h : e1 ≤ e2) :
    stateRank (getState e1) ≤ stateRank (getState e2) := by
  simp only [getState, E_THRESHOLD_TRANSCENDENT, E_THRESHOLD_RADIANT, E_THRESHOLD_FLOURISHING,
    E_THRESHOLD_WARM, E_THRESHOLD_TENDER, E_THRESHOLD_GUARDED]
  split_ifs <;> first | decide | linarith

theorem getState_tender_iff (e : ℚ) :
    getState e = .tender ↔ (E_THRESHOLD_TENDER < e ∧ e ≤ E_THRESHOLD_WARM) := by
  simp only [getState, E_THRESHOLD_TRANSCENDENT, E_THRESHOLD_RADIANT, E_THRESHOLD_FLOURISHING,
    E_THRESHOLD_WARM, E_THRESHOLD_TENDER, E_THRESHOLD_GUARDED]
  split_ifs <;> simp <;> try push_neg
  all_goals first | (constructor <;> linarith) | (intro p; linarith)

theorem getState_boundaries :
    getState E_THRESHOLD_GUARDED = .protecting ∧
    getState E_THRESHOLD_TENDER = .guarded ∧
    getState E_THRESHOLD_WARM = .tender ∧
    getState E_THRESHOLD_FLOURISHING = .warm ∧
    getState E_THRESHOLD_RADIANT = .flourishing ∧
    getState E_THRESHOLD_TRANSCENDENT = .radiant := by
  norm_num [getState, E_THRESHOLD_TRANSCENDENT, E_THRESHOLD_RADIANT, E_THRESHOLD_FLOURISHING,
    E_THRESHOLD_WARM, E_THRESHOLD_TENDER, E_THRESHOLD_GUARDED]

/-! ## Helper lemmas about the button phases -/

theorem comboPhase_pressedA (s : DeviceState) (a b : Bool) (n : ℕ) (sc : ℤ) :
    ((comboPhase s a b n sc).1).btnA_pressed = s.btnA_pressed := by
  unfold comboPhase; split_ifs <;> rfl

theorem comboPhase_pressedB (s : DeviceState) (a b : Bool) (n : ℕ) (sc : ℤ) :
    ((comboPhase s a b n sc).1).btnB_pressed = s.btnB_pressed := by
  unfold comboPhase; split_ifs <;> rfl

theorem comboPhase_agentIndex (s : DeviceState) (a b : Bool) (n : ℕ) (sc : ℤ) :
    ((comboPhase s a b n sc).1).soul.agentIndex = s.soul.agentIndex := by
  unfold comboPhase syncWithVillage; split_ifs <;> rfl

theorem comboPhase_not_btnA (s : DeviceState) (b : Bool) (n : ℕ) (sc : ℤ) :
    comboPhase s false b n sc = (s, []) := rfl

theorem comboPhase_not_btnB (s : DeviceState) (a : Bool) (n : ℕ) (sc : ℤ) :
    comboPhase s a false n sc = (s, []) := by
  unfold comboPhase; simp

theorem aPressPhase_not_btnA (s : DeviceState) (n : ℕ) :
    aPressPhase s false n = s := rfl

theorem aPressPhase_fire (s : DeviceState) (n : ℕ) (h : s.btnA_pressed = false) :
    aPressPhase s true n =
      { s with btnA_pressed := true, btnA_pressTime := n,
               btnA_longTriggered := false, lastDebounce := n } := by
  unfold aPressPhase; simp [h]

theorem aPressPhase_agentIndex (s : DeviceState) (a : Bool) (n : ℕ) :
    (aPressPhase s a n).soul.agentIndex = s.soul.agentIndex := by
  unfold aPressPhase; split_ifs <;> rfl

theorem aPressPhase_longB (s : DeviceState) (a : Bool) (n : ℕ) :
    (aPressPhase s a n).btnB_longTriggered = s.btnB_longTriggered := by
  unfold aPressPhase; split_ifs <;> rfl

theorem aPressPhase_pressedB (s : DeviceState) (a : Bool) (n : ℕ) :
    (aPressPhase s a n).btnB_pressed = s.btnB_pressed := by
  unfold aPressPhase; split_ifs <;> rfl

theorem aReleasePhase_btnA_down (s : DeviceState) (n : ℕ) (cc : ℤ) :
    aReleasePhase s true n cc = (s, []) := rfl

theorem aReleasePhase_longA (s : DeviceState) (a : Bool) (n : ℕ) (cc : ℤ) :
    ((aReleasePhase s a n cc).1).btnA_longTriggered = s.btnA_longTriggered := by
  simp only [aReleasePhase]; repeat' split
  all_goals rfl

theorem aReleasePhase_longB (s : DeviceState) (a : Bool) (n : ℕ) (cc : ℤ) :
    ((aReleasePhase s a n cc).1).btnB_longTriggered = s.btnB_longTriggered := by
  simp only [aReleasePhase]; repeat' split
  all_goals rfl

theorem aReleasePhase_pressedB (s : DeviceState) (a : Bool) (n : ℕ) (cc : ℤ) :
    ((aReleasePhase s a n cc).1).btnB_pressed = s.btnB_pressed := by
  simp only [aReleasePhase]; repeat' split
  all_goals rfl

theorem aReleasePhase_agentIndex (s : DeviceState) (a : Bool) (n : ℕ) (cc : ℤ) :
    ((aReleasePhase s a n cc).1).soul.agentIndex = s.soul.agentIndex := by
  simp only [aReleasePhase]; repeat' split
  all_goals simp [applyCare_agentIndex]

theorem aReleasePhase_pressedA_up (s : DeviceState) (n : ℕ) (cc : ℤ) :
    ((aReleasePhase s false n cc).1).btnA_pressed = false := by
  simp only [aReleasePhase]; repeat' split
  all_goals simp_all

theorem aLongPhase_pressedA (s : DeviceState) (n : ℕ) :
    ((aLongPhase s n).1).btnA_pressed = s.btnA_pressed := by
  simp only [aLongPhase]; repeat' split
  all_goals rfl

theorem aLongPhase_longB (s : DeviceState) (n : ℕ) :
    ((aLongPhase s n).1).btnB_longTriggered = s.btnB_longTriggered := by
  simp only [aLongPhase]; repeat' split
  all_goals rfl

theorem aLongPhase_pressedB (s : DeviceState) (n : ℕ) :
    ((aLongPhase s n).1).btnB_pressed = s.btnB_pressed := by
  simp only [aLongPhase]; repeat' split
  all_goals rfl

theorem aLongPhase_agentIndex (s : DeviceState) (n : ℕ) :
    ((aLongPhase s n).1).soul.agentIndex = s.soul.agentIndex := by
  simp only [aLongPhase]; repeat' split
  all_goals rfl

theorem aLongPhase_not_pressed (s : DeviceState) (n : ℕ) (h : s.btnA_pressed = false) :
    aLongPhase s n = (s, []) := by
  unfold aLongPhase; simp [h]

theorem aLongPhase_fresh (s : DeviceState) (n : ℕ) (h : s.btnA_pressTime = n) :
    aLongPhase s n = (s, []) := by
  unfold aLongPhase; simp [h, LONG_PRESS_MS]

theorem bPressPhase_not_btnB (s : DeviceState) (n : ℕ) :
    bPressPhase s false n = s := rfl

theorem bPressPhase_fire (s : DeviceState) (n : ℕ) (h : s.btnB_pressed = false) :
    bPressPhase s true n =
      { s with btnB_pressed := true, btnB_pressTime := n,
               btnB_longTriggered := false, lastDebounce := n } := by
  unfold bPressPhase; simp [h]

theorem bPressPhase_agentIndex (s : DeviceState) (b : Bool) (n : ℕ) :
    (bPressPhase s b n).soul.agentIndex = s.soul.agentIndex := by
  unfold bPressPhase; split_ifs <;> rfl

theorem bPressPhase_longA (s : DeviceState) (b : Bool) (n : ℕ) :
    (bPressPhase s b n).btnA_longTriggered = s.btnA_longTriggered := by
  unfold bPressPhase; split_ifs <;> rfl

theorem bPressPhase_pressedA (s : DeviceState) (b : Bool) (n : ℕ) :
    (bPressPhase s b n).btnA_pressed = s.btnA_pressed := by
  unfold bPressPhase; split_ifs <;> rfl

theorem bReleasePhase_btnB_down (s : DeviceState) (n : ℕ) (cc : ℤ) :
    bReleasePhase s true n cc = (s, []) := rfl

theorem bReleasePhase_longB (s : DeviceState) (b : Bool) (n : ℕ) (cc : ℤ) :
    ((bReleasePhase s b n cc).1).btnB_longTriggered = s.btnB_longTriggered := by
  simp only [bReleasePhase]; repeat' split
  all_goals rfl

theorem bReleasePhase_longA (s : DeviceState) (b : Bool) (n : ℕ) (cc : ℤ) :
    ((bReleasePhase s b n cc).1).btnA_longTriggered = s.btnA_longTriggered := by
  simp only [bReleasePhase]; repeat' split
  all_goals rfl

theorem bReleasePhase_pressedA (s : DeviceState) (b : Bool) (n : ℕ) (cc : ℤ) :
    ((bReleasePhase s b n cc).1).btnA_pressed = s.btnA_pressed := by
  simp only [bReleasePhase]; repeat' split
  all_goals rfl

theorem bReleasePhase_agentIndex (s : DeviceState) (b : Bool) (n : ℕ) (cc : ℤ) :
    ((bReleasePhase s b n cc).1).soul.agentIndex = s.soul.agentIndex := by
  simp only [bReleasePhase]; repeat' split
  all_goals simp [applyCare_agentIndex]

theorem bReleasePhase_pressedB_up (s : DeviceState) (n : ℕ) (cc : ℤ) :
    ((bReleasePhase s false n cc).1).btnB_pressed = false := by
  simp only [bReleasePhase]; repeat' split
  all_goals simp_all

theorem bLongPhase_longA (s : DeviceState) (n : ℕ) :
    ((bLongPhase s n).1).btnA_longTriggered = s.btnA_longTriggered := by
  simp only [bLongPhase]; repeat' split
  all_goals rfl

theorem bLongPhase_pressedA (s : DeviceState) (n : ℕ) :
    ((bLongPhase s n).1).btnA_pressed = s.btnA_pressed := by
  simp only [bLongPhase]; repeat' split
  all_goals rfl

theorem bLongPhase_agentIndex (s : DeviceState) (n : ℕ) :
    ((bLongPhase s n).1).soul.agentIndex = s.soul.agentIndex := by
  simp only [bLongPhase]; repeat' split
  all_goals rfl

theorem bLongPhase_not_pressed (s : DeviceState) (n : ℕ) (h : s.btnB_pressed = false) :
    bLongPhase s n = (s, []) := by
  unfold bLongPhase; simp [h]

theorem bLongPhase_fresh (s : DeviceState) (n : ℕ) (h : s.btnB_pressTime = n) :
    bLongPhase s n = (s, []) := by
  unfold bLongPhase; simp [h, LONG_PRESS_MS]

/-! ## Helper lemmas about whole `handleButtons` steps -/

theorem stepButtons_agentIndex (s : DeviceState) (a b : Bool) (n : ℕ) (sc cc : ℤ) :
    ((stepButtons s a b n sc cc).1).soul.agentIndex = s.soul.agentIndex := by
  unfold stepButtons
  split_ifs with hg
  · rfl
  · simp only [bLongPhase_agentIndex, bReleasePhase_agentIndex, bPressPhase_agentIndex,
      aLongPhase_agentIndex, aReleasePhase_agentIndex, aPressPhase_agentIndex,
      comboPhase_agentIndex]

theorem stepButtons_longA_of_up (s : DeviceState) (b : Bool) (n : ℕ) (sc cc : ℤ) :
    ((stepButtons s false b n sc cc).1).btnA_longTriggered = s.btnA_longTriggered := by
  unfold stepButtons
  split_ifs with hg
  · rfl
  · simp only [comboPhase_not_btnA, aPressPhase_not_btnA, bLongPhase_longA,
      bReleasePhase_longA, bPressPhase_longA, aReleasePhase_pressedA_up,
      aLongPhase_not_pressed, aReleasePhase_longA]

theorem stepButtons_longB_of_up (s : DeviceState) (a : Bool) (n : ℕ) (sc cc : ℤ) :
    ((stepButtons s a false n sc cc).1).btnB_longTriggered = s.btnB_longTriggered := by
  unfold stepButtons
  split_ifs with hg
  · rfl
  · simp only [comboPhase_not_btnB, aPressPhase_longB, aReleasePhase_longB,
      aLongPhase_longB, bPressPhase_not_btnB, bReleasePhase_pressedB_up,
      bLongPhase_not_pressed, bReleasePhase_longB]

theorem stepButtons_longA_of_press (s : DeviceState) (a b : Bool) (n : ℕ) (sc cc : ℤ)
    (hp : s.btnA_pressed = false)
    (hp' : ((stepButtons s a b n sc cc).1).btnA_pressed = true) :
    ((stepButtons s a b n sc cc).1).btnA_longTriggered = false := by
  unfold stepButtons at hp' ⊢
  split_ifs at hp' ⊢ with hg
  · simp [hp] at hp'
  · cases a with
    | false =>
        simp only [comboPhase_not_btnA, aPressPhase_not_btnA, bLongPhase_pressedA,
          bReleasePhase_pressedA, bPressPhase_pressedA, aReleasePhase_pressedA_up,
          aLongPhase_not_pressed] at hp'
        exact Bool.noConfusion hp'
    | true =>
        simp only [comboPhase_pressedA, aPressPhase_fire, hp, aReleasePhase_btnA_down,
          aLongPhase_fresh, bPressPhase_longA, bReleasePhase_longA, bLongPhase_longA]

theorem stepButtons_longB_of_press (s : DeviceState) (a b : Bool) (n : ℕ) (sc cc : ℤ)
    (hp : s.btnB_pressed = false)
    (hp' : ((stepButtons s a b n sc cc).1).btnB_pressed = true) :
    ((stepButtons s a b n sc cc).1).btnB_longTriggered = false := by
  unfold stepButtons at hp' ⊢
  split_ifs at hp' ⊢ with hg
  · simp [hp] at hp'
  · cases b with
    | false =>
        simp only [comboPhase_not_btnB, bPressPhase_not_btnB, aLongPhase_pressedB,
          aReleasePhase_pressedB, aPressPhase_pressedB, comboPhase_pressedB,
          bReleasePhase_pressedB_up, bLongPhase_not_pressed] at hp'
        exact Bool.noConfusion hp'
    | true =>
        simp only [comboPhase_pressedB, aPressPhase_pressedB, aReleasePhase_pressedB,
          aLongPhase_pressedB, bPressPhase_fire, hp, bReleasePhase_btnB_down,
          bLongPhase_fresh]

/-! ## Claim theorems -/

/-- Claim C1: for every `updateSoul` (applyEvent) call with `care ≥ 0`,
`damage ≥ 0` and any `dt`, starting from `floor ≤ energy ≤ MAX_E`, the
bounds `floor ≤ energy ≤ MAX_E` hold afterwards; and across any sequence of
`updateSoul` / `applyCare` calls, `floor`, `interactions` and `totalCare`
are each non-decreasing. -/
theorem soul_invariants_hold :
    (∀ (s : SoulState) (care damage dt : ℚ), 0 ≤ care → 0 ≤ damage →
      s.floor ≤ s.energy → s.energy ≤ MAX_E →
      (updateSoul s care damage dt).floor ≤ (updateSoul s care damage dt).energy ∧
        (updateSoul s care damage dt).energy ≤ MAX_E) ∧
    (∀ (s : SoulState) (calls : List SoulCall),
      s.floor ≤ (runCalls s calls).floor ∧
        s.interactions ≤ (runCalls s calls).interactions ∧
        s.totalCare ≤ (runCalls s calls).totalCare) :=
  ⟨fun s care damage dt _ _ hfe hmax =>
    ⟨updateSoul_floor_le_energy s care damage dt hfe,
     updateSoul_energy_le s care damage dt (hfe.trans hmax) hmax⟩,
   fun s calls => runCalls_mono s calls⟩

/-- Witness for C1 at the concrete input `s = initSoul`, `care = 1`,
`damage = 0`, `dt = 1`. -/
theorem soul_invariants_witness :
    (updateSoul initSoul 1 0 1).floor ≤ (updateSoul initSoul 1 0 1).energy ∧
      (updateSoul initSoul 1 0 1).energy ≤ MAX_E :=
  soul_invariants_hold.1 initSoul 1 0 1 (by norm_num) (by norm_num)
    (by norm_num [initSoul, INITIAL_E, INITIAL_FLOOR])
    (by norm_num [initSoul, INITIAL_E, MAX_E])

/-- Claim C2 (Scenario A): from `energy = 1`, `floor = 1`, a single
`applyCare(1.5)` call computes growth rate `0.0088`, yields
`energy = 1.0132` exactly (within the claim's tolerance), `floor` within
`10⁻⁶` of `1.0000013` (the exact value is `1.00000132`), and `getState`
afterwards returns Tender. -/
theorem scenario_a_applyCare :
    betaOf initSoul.energy = 88 / 10000 ∧
    (applyCare initSoul (3 / 2)).energy = 10132 / 10000 ∧
    |(applyCare initSoul (3 / 2)).floor - 10000013 / 10000000| ≤ 1 / 1000000 ∧
    getState (applyCare initSoul (3 / 2)).energy = .tender := by
  norm_num [applyCare, updateSoul, betaOf, initSoul, BETA_BASE, FLOOR_RATE, MAX_E,
    INITIAL_E, INITIAL_FLOOR, min_def, max_def, getState, E_THRESHOLD_TRANSCENDENT,
    E_THRESHOLD_RADIANT, E_THRESHOLD_FLOURISHING, E_THRESHOLD_WARM, E_THRESHOLD_TENDER,
    E_THRESHOLD_GUARDED, abs_le]

/-- Claim C3: `getState` maps `energy` through the ascending threshold
ladder 0.5, 1, 2, 5, 12, 30 with exclusive lower bounds — a value exactly
equal to a threshold falls in the lower tier (in particular `energy = 1`
yields Guarded and Tender holds exactly when `1 < energy ≤ 2`), and
`getState` is monotone non-decreasing in `energy` (with respect to the
C++ enum ordering `stateRank`). -/
theorem classify_ladder :
    getState E_THRESHOLD_GUARDED = .protecting ∧
    getState E_THRESHOLD_TENDER = .guarded ∧
    getState E_THRESHOLD_WARM = .tender ∧
    getState E_THRESHOLD_FLOURISHING = .warm ∧
    getState E_THRESHOLD_RADIANT = .flourishing ∧
    getState E_THRESHOLD_TRANSCENDENT = .radiant ∧
    (∀ e : ℚ, getState e = .tender ↔ (E_THRESHOLD_TENDER < e ∧ e ≤ E_THRESHOLD_WARM)) ∧
    (∀ e1 e2 : ℚ, e1 ≤ e2 → stateRank (getState e1) ≤ stateRank (getState e2)) :=
  ⟨getState_boundaries.1, getState_boundaries.2.1, getState_boundaries.2.2.1,
   getState_boundaries.2.2.2.1, getState_boundaries.2.2.2.2.1,
   getState_boundaries.2.2.2.2.2, getState_tender_iff, getState_mono⟩

/-- Witness for C3's monotonicity component at the concrete inputs
`e1 = 1`, `e2 = 3`. -/
theorem classify_ladder_witness :
    stateRank (getState 1) ≤ stateRank (getState 3) :=
  classify_ladder.2.2.2.2.2.2.2 1 3 (by norm_num)

/-- Counterexample to claim C4 as stated: a `syncWithVillage` call with the
link up that receives HTTP 200 (the success path, witnessed by the success
message and `villageOnline = true`) does NOT trigger a persistence save —
`syncWithVillage` contains no `saveState` call. -/
theorem fullSync_success_no_save :
    (syncWithVillage initSoul true false 200).messageText = "Soul synced!" ∧
    (syncWithVillage initSoul true false 200).villageOnline = true ∧
    (syncWithVillage initSoul true false 200).didSave = false := by
  decide

/-- Claim C4 as amended: `syncWithVillage` never mutates the soul and never
triggers a persistence save; with the link up, a 200 response sets
`villageOnline = true` and shows "Soul synced!", while a non-200 response
leaves `villageOnline` as it was and only shows the transient
"Sync failed" message. -/
theorem fullSync_effects (soul : SoulState) (w v : Bool) (code : ℤ) :
    (syncWithVillage soul w v code).soul = soul ∧
    (syncWithVillage soul w v code).didSave = false ∧
    (w = true → code = 200 →
      (syncWithVillage soul w v code).villageOnline = true ∧
      (syncWithVillage soul w v code).messageText = "Soul synced!") ∧
    (w = true → code ≠ 200 →
      (syncWithVillage soul w v code).villageOnline = v ∧
      (syncWithVillage soul w v code).messageText = "Sync failed") := by
  unfold syncWithVillage
  split_ifs with h1 h2 <;> simp_all

/-- Witness for C4's amended claim at the concrete input
`soul = initSoul`, link up, `villageOnline = false`, HTTP 500. -/
theorem fullSync_effects_witness :
    (syncWithVillage initSoul true false 500).villageOnline = false ∧
    (syncWithVillage initSoul true false 500).messageText = "Sync failed" :=
  (fullSync_effects initSoul true false 500).2.2.2 rfl (by decide)

/-- Claim C5: no step of `handleButtons` ever changes `currentAgentIndex`
(the handler contains no agent-cycling code), and in particular a LongPress
of button A in AgentSelect mode — evaluated concretely from a state where A
has been held since `t = 100` and the step runs at `t = 1000` — emits the
LongPress event yet leaves `agentIndex` (and the mode) unchanged, instead
of advancing it by one modulo `NUM_AGENTS`. -/
theorem agentSelect_longPressA_no_cycle :
    (∀ (s : DeviceState) (a b : Bool) (n : ℕ) (sc cc : ℤ),
      ((stepButtons s a b n sc cc).1).soul.agentIndex = s.soul.agentIndex) ∧
    (stepButtons agentsModeHeldA true false 1000 0 0).2 = [.longA] ∧
    ((stepButtons agentsModeHeldA true false 1000 0 0).1).soul.agentIndex = 0 ∧
    ((stepButtons agentsModeHeldA true false 1000 0 0).1).mode = .agents :=
  ⟨stepButtons_agentIndex, by decide, by decide, by decide⟩

/-- Counterexample to claim C6 as stated: the FullSync request payload
contains no `peak` key (the firmware keeps no peak field at all). -/
theorem sync_payload_no_peak :
    "peak" ∉ (syncRequestDoc initSoul "pocket-alpha-01").map Prod.fst := by
  simp [syncRequestDoc]

/-- Claim C6 as amended: the soul state of this firmware carries no peak
field, and for every soul the FullSync payload consists of exactly the keys
`E`, `E_floor`, `interactions`, `total_care`, `device_id`, `state` —
`peak` is never transmitted. -/
theorem sync_payload_keys (soul : SoulState) (deviceId : String) :
    (syncRequestDoc soul deviceId).map Prod.fst =
      ["E", "E_floor", "interactions", "total_care", "device_id", "state"] ∧
    "peak" ∉ (syncRequestDoc soul deviceId).map Prod.fst := by
  simp [syncRequestDoc]

/-- Claim C7: `loadState` adopts the snapshot's `agent` field without any
range check, so a parsed snapshot carrying `agent = 7` leaves
`agentIndex = 7`, which is NOT a valid index into the 5-entry persona set
(every subsequent `AGENTS[agentIndex]` read is out of bounds). -/
theorem loadState_out_of_range_agent :
    (loadState initSoul (.parsed ⟨none, none, none, none, none, some 7⟩) 0).agentIndex = 7 ∧
    ¬ ((loadState initSoul (.parsed ⟨none, none, none, none, none, some 7⟩) 0).agentIndex
        < NUM_AGENTS) := by
  decide

/-- Counterexample to claim C8 as stated: after pressing A at `t = 100`,
letting the long press fire at `t = 1000`, and releasing at `t = 1100`,
the device reaches a state with `btnA_longTriggered = true` while
`btnA_pressed = false` — the flag is not reset on the release edge. -/
theorem longFlag_survives_release :
    ((runButtons initDevice
        [⟨true, false, 100, 0, 0⟩, ⟨true, false, 1000, 0, 0⟩,
         ⟨false, false, 1100, 0, 0⟩]).1).btnA_longTriggered = true ∧
    ((runButtons initDevice
        [⟨true, false, 100, 0, 0⟩, ⟨true, false, 1000, 0, 0⟩,
         ⟨false, false, 1100, 0, 0⟩]).1).btnA_pressed = false := by
  decide

/-- Claim C8 as amended: for each button, `longPressFired`
(`btnX_longTriggered`) is reset to false on the press edge, not on the
release edge — a step in which the button's level is up never changes the
flag, while any step that turns `isDown` (`btnX_pressed`) from false to
true leaves the flag false. -/
theorem longFlag_lifecycle :
    (∀ (s : DeviceState) (b : Bool) (n : ℕ) (sc cc : ℤ),
      ((stepButtons s false b n sc cc).1).btnA_longTriggered = s.btnA_longTriggered) ∧
    (∀ (s : DeviceState) (a : Bool) (n : ℕ) (sc cc : ℤ),
      ((stepButtons s a false n sc cc).1).btnB_longTriggered = s.btnB_longTriggered) ∧
    (∀ (s : DeviceState) (a b : Bool) (n : ℕ) (sc cc : ℤ),
      s.btnA_pressed = false →
      ((stepButtons s a b n sc cc).1).btnA_pressed = true →
      ((stepButtons s a b n sc cc).1).btnA_longTriggered = false) ∧
    (∀ (s : DeviceState) (a b : Bool) (n : ℕ) (sc cc : ℤ),
      s.btnB_pressed = false →
      ((stepButtons s a b n sc cc).1).btnB_pressed = true →
      ((stepButtons s a b n sc cc).1).btnB_longTriggered = false) :=
  ⟨stepButtons_longA_of_up, stepButtons_longB_of_up,
   stepButtons_longA_of_press, stepButtons_longB_of_press⟩

/-- Witness for C8's amended claim: a press edge of A at the concrete
input `initDevice`, `t = 100`, leaves the long flag false. -/
theorem longFlag_lifecycle_witness :
    ((stepButtons initDevice true false 100 0 0).1).btnA_longTriggered = false :=
  longFlag_lifecycle.2.2.1 initDevice true false 100 0 0 rfl (by decide)

/-- Claim C9: evaluated from the boot state (both press timestamps 0),
a simultaneous press of both buttons at `t = 2000` emits ComboHold in the
very same step in which the press edges are first processed (both
`pressTime` fields are only now set to 2000) — the buttons have been held
for 0 ms, not longer than the combo threshold — and because the press-edge
code then clears both long-triggered flags, releasing both buttons at
`t = 2100` emits the individual ShortPress events that the claim says are
suppressed. -/
theorem combo_instant_fire :
    initDevice.btnA_pressed = false ∧
    initDevice.btnB_pressed = false ∧
    (stepButtons initDevice true true 2000 404 0).2 = [.comboSync] ∧
    ((stepButtons initDevice true true 2000 404 0).1).btnA_pressTime = 2000 ∧
    ((stepButtons initDevice true true 2000 404 0).1).btnB_pressTime = 2000 ∧
    (runButtons initDevice
        [⟨true, true, 2000, 404, 0⟩, ⟨false, false, 2100, 0, 0⟩]).2
      = [.comboSync, .shortA, .shortB] := by
  decide

/-- Claim C10: `applyCare` increments `interactions` by exactly one for
every intensity, and a zero-intensity care call still mutates state: for
any in-range soul with `floor < energy`, `applyCare 0` leaves `energy` and
`totalCare` unchanged while the floor strictly increases. -/
theorem applyCare_zero_intensity (s : SoulState)
    (hfl : s.floor < s.energy) (hmax : s.energy ≤ MAX_E) :
    (∀ i : ℚ, (applyCare s i).interactions = s.interactions + 1) ∧
    (applyCare s 0).energy = s.energy ∧
    s.floor < (applyCare s 0).floor ∧
    (applyCare s 0).totalCare = s.totalCare := by
  refine ⟨fun i => applyCare_interactions s i, ?_⟩
  simp only [applyCare, updateSoul]
  rw [if_neg (by norm_num : ¬ (1 : ℚ) ≤ 0)]
  dsimp only
  have he : s.energy + betaOf s.energy * (0 - 0) * s.energy * 1 = s.energy := by ring
  rw [he, min_eq_right hmax, max_eq_right hfl.le, if_pos hfl, if_neg (lt_irrefl (0 : ℚ))]
  refine ⟨rfl, ?_, rfl⟩
  have hpos : 0 < (s.energy - s.floor) * FLOOR_RATE * 1 :=
    mul_pos (mul_pos (sub_pos.2 hfl) (by norm_num [FLOOR_RATE])) one_pos
  exact lt_min hfl (by linarith)

/-- Witness for C10 at the concrete soul with `energy = 2`, `floor = 1`. -/
theorem applyCare_zero_intensity_witness :
    (applyCare ⟨2, 1, 0, 0, 0, 0⟩ 0).energy = (⟨2, 1, 0, 0, 0, 0⟩ : SoulState).energy ∧
      (⟨2, 1, 0, 0, 0, 0⟩ : SoulState).floor < (applyCare ⟨2, 1, 0, 0, 0, 0⟩ 0).floor :=
  ⟨(applyCare_zero_intensity ⟨2, 1, 0, 0, 0, 0⟩ (by norm_num) (by norm_num [MAX_E])).2.1,
   (applyCare_zero_intensity ⟨2, 1, 0, 0, 0, 0⟩ (by norm_num) (by norm_num [MAX_E])).2.2.1⟩

end ApexPocket
